import Mathlib

/-!
Shallow embedding of the fit4work job-scraper core
(src/job_scraper_app/scrapers/ and src/job_scraper_app/database/setup.py)
for verification of the specification's claims.

Conventions:
* Python `datetime` values are modelled as a rata-die day number plus a
  microsecond-of-day; `datetime.strptime` is modelled by an executable
  directive interpreter for the directives that the source's format strings
  use (%Y %m %d %H %M %S %B %b and literals), following CPython's
  `_strptime` regular expressions.
* Fallible calls (HTTP fetches, browser launches, commits) are modelled
  with `Except`/oracle parameters supplied by an environment, so each
  theorem quantifies over every possible outcome of the outside world.
* Logging calls in the source are not modelled (they have no effect on
  data flow).
-/

namespace Fit4Work

/-! ## Python datetime model -/

/-- A Python `datetime.datetime`, modelled as a rata-die day number
(`day`, days since 1970-01-01, negative before) together with the
microsecond of that day (`usec < 86400000000`). -/
structure PyDateTime where
  day : Int
  usec : Nat
  deriving DecidableEq, Repr

/-- `dt.replace(hour=0, minute=0, second=0, microsecond=0)`:
the start of the day of `dt`. -/
def startOfDay (dt : PyDateTime) : PyDateTime :=
  { dt with usec := 0 }

/-- `dt + timedelta(days=n)` (with `n : Int`, so subtraction is
`addDays dt (-n)`); `timedelta(days=...)` does not change the
time of day. -/
def addDays (dt : PyDateTime) (n : Int) : PyDateTime :=
  { dt with day := dt.day + n }

/-- Gregorian leap-year test (as in Python's `calendar`/`datetime`). -/
def isLeap (y : Int) : Bool :=
  (y % 4 == 0 && y % 100 != 0) || y % 400 == 0

/-- Number of days in month `m` of year `y` (1-based month). -/
def daysInMonth (y : Int) (m : Nat) : Nat :=
  if m == 2 then (if isLeap y then 29 else 28)
  else if m == 4 || m == 6 || m == 9 || m == 11 then 30
  else 31

/-- Rata-die day number of the civil date `y-m-d`
(days since 1970-01-01; Hinnant's days-from-civil algorithm, which is
valid for truncated integer division as used by `Int.div`). -/
def daysFromCivil (y : Int) (m : Nat) (d : Nat) : Int :=
  let y' : Int := if m ≤ 2 then y - 1 else y
  let era : Int := (if 0 ≤ y' then y' else y' - 399) / 400
  let yoe : Int := y' - era * 400
  let mp : Int := ((m : Int) + 9) % 12
  let doy : Int := (153 * mp + 2) / 5 + (d : Int) - 1
  let doe : Int := yoe * 365 + yoe / 4 - yoe / 100 + doy
  era * 146097 + doe - 719468

/-! ## Python string helpers -/

/-- Python whitespace characters recognised by `str.strip()`/`str.split()`
(ASCII subset; the source only handles ASCII dates). -/
def isPySpace (c : Char) : Bool :=
  c == ' ' || c == '\t' || c == '\n' || c == '\x0d' || c == '\x0b' || c == '\x0c'

/-- `str.strip()` (ASCII whitespace). -/
def pyStrip (s : String) : String :=
  String.mk (((s.toList.dropWhile isPySpace).reverse.dropWhile isPySpace).reverse)

/-- ASCII lower-casing of one character (`str.lower()` on the source's
ASCII inputs). -/
def asciiLowerChar (c : Char) : Char :=
  if 'A' ≤ c ∧ c ≤ 'Z' then Char.ofNat (c.toNat + 32) else c

/-- `str.lower()` (ASCII). -/
def asciiLower (s : String) : String :=
  String.mk (s.toList.map asciiLowerChar)

/-- Python's `needle in hay` substring test. -/
def strContains (hay needle : String) : Bool :=
  (List.range (hay.toList.length + 1)).any
    (fun i => needle.toList.isPrefixOf (hay.toList.drop i))

/-- Helper for `pySplitWs`: split a character list on whitespace runs,
accumulating the current word reversed. -/
def splitWsAux : List Char → List Char → List String
  | [], acc => if acc.isEmpty then [] else [String.mk acc.reverse]
  | c :: cs, acc =>
    if isPySpace c then
      if acc.isEmpty then splitWsAux cs []
      else String.mk acc.reverse :: splitWsAux cs []
    else splitWsAux cs (c :: acc)

/-- Python `str.split()` with no argument: split on whitespace runs,
discarding empty fields. -/
def pySplitWs (s : String) : List String :=
  splitWsAux s.toList []

/-- Digit test. -/
def isDigitChar (c : Char) : Bool := '0' ≤ c && c ≤ '9'

/-- Value of a digit character. -/
def digitVal (c : Char) : Nat := c.toNat - 48

/-- Value of a nonempty all-digit string, else `none`. -/
def natDigits? (cs : List Char) : Option Nat :=
  if cs.isEmpty then none
  else if cs.all isDigitChar then
    some (cs.foldl (fun n c => n * 10 + digitVal c) 0)
  else none

/-- Python `int(s)` on a whitespace-free word: optional sign followed by
digits, else a ValueError (`none`).  (CPython also allows underscore
digit grouping, which the source's inputs never contain.) -/
def pyInt? (s : String) : Option Int :=
  match s.toList with
  | '+' :: ds => (natDigits? ds).map (fun n => (n : Int))
  | '-' :: ds => (natDigits? ds).map (fun n => -(n : Int))
  | ds => (natDigits? ds).map (fun n => (n : Int))

/-! ## `datetime.strptime` model

CPython's `_strptime` compiles the format string to a regular expression
(IGNORECASE) and requires it to consume the whole input.  The directive
patterns used below are the ones from `_strptime.TimeRE`:
  %Y = four digits, %m = `1[0-2]|0[1-9]|[1-9]`, %d = `3[01]|[12]\d|0[1-9]|[1-9]`,
  %H = `2[0-3]|[0-1]\d|\d`, %M = %S = `[0-5]\d|\d`,
  %B/%b = month names (case-insensitive); a whitespace character in the
format matches one or more whitespace characters; any other literal
character matches itself case-insensitively.  The resulting struct is
validated by the `datetime` constructor (year 1..9999, day within the
month), raising ValueError (`none`) otherwise. -/

/-- Partially filled `struct_time` during `strptime` matching, with
CPython's defaults (year 1900, January 1, midnight). -/
structure StrpAcc where
  y : Int := 1900
  mo : Nat := 1
  d : Nat := 1
  hh : Nat := 0
  mi : Nat := 0
  ss : Nat := 0
  deriving DecidableEq, Repr

/-- Match exactly four digits (the `%Y` pattern). -/
def matchYear : List Char → Option (Nat × List Char)
  | a :: b :: c :: d :: rest =>
    if isDigitChar a && isDigitChar b && isDigitChar c && isDigitChar d then
      some (((digitVal a * 10 + digitVal b) * 10 + digitVal c) * 10 + digitVal d, rest)
    else none
  | _ => none

/-- Match the `%m` pattern `1[0-2]|0[1-9]|[1-9]`. -/
def matchMonth : List Char → Option (Nat × List Char)
  | '1' :: b :: rest =>
    if isDigitChar b && digitVal b ≤ 2 then some (10 + digitVal b, rest)
    else some (1, b :: rest)
  | '0' :: b :: rest =>
    if isDigitChar b && 1 ≤ digitVal b then some (digitVal b, rest) else none
  | a :: rest =>
    if isDigitChar a && 1 ≤ digitVal a then some (digitVal a, rest) else none
  | [] => none

/-- Match the `%d` pattern `3[01]|[12]\d|0[1-9]|[1-9]`. -/
def matchDay : List Char → Option (Nat × List Char)
  | '3' :: b :: rest =>
    if b == '0' || b == '1' then some (30 + digitVal b, rest)
    else some (3, b :: rest)
  | a :: b :: rest =>
    if (a == '1' || a == '2') && isDigitChar b then
      some (digitVal a * 10 + digitVal b, rest)
    else if a == '0' && isDigitChar b && 1 ≤ digitVal b then
      some (digitVal b, rest)
    else if isDigitChar a && 1 ≤ digitVal a then some (digitVal a, b :: rest)
    else none
  | [a] => if isDigitChar a && 1 ≤ digitVal a then some (digitVal a, []) else none
  | [] => none

/-- Match the `%H` pattern `2[0-3]|[0-1]\d|\d`. -/
def matchHour : List Char → Option (Nat × List Char)
  | '2' :: b :: rest =>
    if isDigitChar b && digitVal b ≤ 3 then some (20 + digitVal b, rest)
    else some (2, b :: rest)
  | a :: b :: rest =>
    if (a == '0' || a == '1') && isDigitChar b then
      some (digitVal a * 10 + digitVal b, rest)
    else if isDigitChar a then some (digitVal a, b :: rest)
    else none
  | [a] => if isDigitChar a then some (digitVal a, []) else none
  | [] => none

/-- Match the `%M`/`%S` pattern `[0-5]\d|\d`. -/
def matchMinSec : List Char → Option (Nat × List Char)
  | a :: b :: rest =>
    if isDigitChar a && digitVal a ≤ 5 && isDigitChar b then
      some (digitVal a * 10 + digitVal b, rest)
    else if isDigitChar a then some (digitVal a, b :: rest)
    else none
  | [a] => if isDigitChar a then some (digitVal a, []) else none
  | [] => none

/-- English month names for `%B` (full) with their numbers. -/
def fullMonthNames : List (String × Nat) :=
  [("january", 1), ("february", 2), ("march", 3), ("april", 4), ("may", 5),
   ("june", 6), ("july", 7), ("august", 8), ("september", 9), ("october", 10),
   ("november", 11), ("december", 12)]

/-- English month names for `%b` (abbreviated) with their numbers. -/
def abbrMonthNames : List (String × Nat) :=
  [("jan", 1), ("feb", 2), ("mar", 3), ("apr", 4), ("may", 5), ("jun", 6),
   ("jul", 7), ("aug", 8), ("sep", 9), ("oct", 10), ("nov", 11), ("dec", 12)]

/-- Case-insensitively match one of the given month names as a prefix of
the input, returning the month number and the rest. -/
def matchMonthName (names : List (String × Nat)) (input : List Char) :
    Option (Nat × List Char) :=
  names.findSome? fun p =>
    if p.1.toList.isPrefixOf (input.map asciiLowerChar) then
      some (p.2, input.drop p.1.toList.length)
    else none

/-- The `strptime` matching engine: walk the format character list,
consuming the input; fails (`none`) exactly when CPython's compiled
regular expression fails to match the whole input. -/
def strpGo : List Char → List Char → StrpAcc → Option StrpAcc
  | [], inp, acc => if inp.isEmpty then some acc else none
  | '%' :: dir :: fmtRest, inp, acc =>
    match dir with
    | 'Y' =>
      match matchYear inp with
      | some (v, rest) => strpGo fmtRest rest { acc with y := (v : Int) }
      | none => none
    | 'm' =>
      match matchMonth inp with
      | some (v, rest) => strpGo fmtRest rest { acc with mo := v }
      | none => none
    | 'd' =>
      match matchDay inp with
      | some (v, rest) => strpGo fmtRest rest { acc with d := v }
      | none => none
    | 'H' =>
      match matchHour inp with
      | some (v, rest) => strpGo fmtRest rest { acc with hh := v }
      | none => none
    | 'M' =>
      match matchMinSec inp with
      | some (v, rest) => strpGo fmtRest rest { acc with mi := v }
      | none => none
    | 'S' =>
      match matchMinSec inp with
      | some (v, rest) => strpGo fmtRest rest { acc with ss := v }
      | none => none
    | 'B' =>
      match matchMonthName fullMonthNames inp with
      | some (v, rest) => strpGo fmtRest rest { acc with mo := v }
      | none => none
    | 'b' =>
      match matchMonthName abbrMonthNames inp with
      | some (v, rest) => strpGo fmtRest rest { acc with mo := v }
      | none => none
    | '%' =>
      match inp with
      | '%' :: rest => strpGo fmtRest rest acc
      | _ => none
    | _ => none
  | c :: fmtRest, inp, acc =>
    if isPySpace c then
      match inp with
      | i :: _ =>
        if isPySpace i then strpGo fmtRest (inp.dropWhile isPySpace) acc
        else none
      | [] => none
    else
      match inp with
      | i :: irest =>
        if asciiLowerChar i == asciiLowerChar c then strpGo fmtRest irest acc
        else none
      | [] => none

/-- `datetime.strptime(s, fmt)`: run the matcher, then apply the
`datetime` constructor's validation (year within 1..9999, day within
the month); `none` models a raised ValueError. -/
def pyStrptime (s fmt : String) : Option PyDateTime :=
  match strpGo fmt.toList s.toList {} with
  | none => none
  | some acc =>
    if 1 ≤ acc.y && acc.y ≤ 9999 && 1 ≤ acc.d && acc.d ≤ daysInMonth acc.y acc.mo then
      some { day := daysFromCivil acc.y acc.mo acc.d,
             usec := ((acc.hh * 60 + acc.mi) * 60 + acc.ss) * 1000000 }
    else none

/-! ## `BaseScraper._parse_date` (base_scraper.py lines 144-210) -/

/-- The `common_formats` list of `_parse_date` (lines 168-176). -/
def commonFormats : List String :=
  ["%Y-%m-%d", "%m/%d/%Y", "%d/%m/%Y", "%B %d, %Y", "%b %d, %Y",
   "%Y-%m-%dT%H:%M:%S", "%Y-%m-%dT%H:%M:%SZ"]

/-- The absolute-format attempts of `_parse_date` (lines 160-182):
first the caller-supplied format when truthy, then `commonFormats` in
order, first success wins. -/
def tryAbsoluteFormats (s : String) (fmt : Option String) : Option PyDateTime :=
  let viaCommon := commonFormats.findSome? (fun f => pyStrptime s f)
  match fmt with
  | some f =>
    if f = "" then viaCommon
    else
      match pyStrptime s f with
      | some dt => some dt
      | none => viaCommon
  | none => viaCommon

/-- The units accepted by the relative-date branch (line 194). -/
def relativeUnits : List String :=
  ["day", "days", "week", "weeks", "month", "months"]

/-- The relative-date branch of `_parse_date` (lines 184-207), applied
to the already-stripped date string.  Only "today"/"yesterday" are
truncated to the start of the day; the "N ... ago" results keep the
exact time of day of `now`. -/
def relativeParse (now : PyDateTime) (s : String) : Option PyDateTime :=
  let low := asciiLower s
  if strContains low "today" then some (startOfDay now)
  else if strContains low "yesterday" then some (startOfDay (addDays now (-1)))
  else if strContains low "ago" then
    match pySplitWs low with
    | p0 :: p1 :: _ :: _ =>
      if p1 ∈ relativeUnits then
        match pyInt? p0 with
        | some amount =>
          if p1 = "day" ∨ p1 = "days" then some (addDays now (-amount))
          else if p1 = "week" ∨ p1 = "weeks" then some (addDays now (-(amount * 7)))
          else some (addDays now (-(amount * 30)))
        | none => none
      else none
    | _ => none
  else none

/-- `BaseScraper._parse_date(date_string, format_string)`, with the
current time `now` made explicit (the source reads `datetime.now()`).
`date_string` is an `Option` because callers pass `_extract_text(...)`,
which may be Python `None`; `if not date_string` returns `None` for both
`None` and the empty string.  The function is total: every internal
failure yields `none`, never an exception. -/
def parseDate (now : PyDateTime) (dateString : Option String)
    (formatString : Option String) : Option PyDateTime :=
  match dateString with
  | none => none
  | some s0 =>
    if s0 = "" then none
    else
      let s := pyStrip s0
      match tryAbsoluteFormats s formatString with
      | some dt => some dt
      | none => relativeParse now s

/-! ## Listing records and the persisted store
(database/setup.py lines 20-37 and scrapers/scraper_manager.py lines 129-175) -/

/-- The dictionary an adapter's `scrape()` builds per listing
(weworkremotely_scraper.py lines 70-100, flexjobs_scraper.py lines 85-117).
`title`, `company_name` and `url` keys are always present.
`job_type`, `location` and `posted_date` keys are always present but may
hold Python `None` (the inner `Option`).  `description`, `contact_info`,
`company_website` and `salary_info` keys are only added when extraction
found them, so `none` here means the key is absent from the dict. -/
structure JobData where
  title : String
  company_name : String
  job_type : Option String
  location : Option String
  url : String
  posted_date : Option PyDateTime
  description : Option String := none
  contact_info : Option String := none
  company_website : Option String := none
  salary_info : Option String := none
  deriving DecidableEq, Repr

/-- A persisted `JobListing` row (database/setup.py lines 20-37); the
autoincrement `id` column is not modelled (rows are identified by list
position, which matches insertion order). -/
structure Row where
  title : String
  company_name : String
  job_type : Option String
  location : Option String
  description : Option String
  url : String
  contact_info : Option String
  company_website : Option String
  salary_info : Option String
  posted_date : Option PyDateTime
  scraped_date : PyDateTime
  source_site : String
  is_active : Bool
  deriving DecidableEq, Repr

/-- The update branch of `_store_job_listings` (lines 145-147):
`for key, value in job_data.items(): if key != "url": setattr(...)`.
Only the keys present in the dict are written; `url`, `scraped_date`,
`source_site` and `is_active` are never keys of the adapter dict, so
they keep their stored values. -/
def applyUpdate (j : JobData) (r : Row) : Row :=
  { r with
    title := j.title
    company_name := j.company_name
    job_type := j.job_type
    location := j.location
    posted_date := j.posted_date
    description := match j.description with
      | some s => some s
      | none => r.description
    contact_info := match j.contact_info with
      | some s => some s
      | none => r.contact_info
    company_website := match j.company_website with
      | some s => some s
      | none => r.company_website
    salary_info := match j.salary_info with
      | some s => some s
      | none => r.salary_info }

/-- The insert branch of `_store_job_listings` (lines 151-165):
a fresh `JobListing` with `scraped_date = datetime.utcnow()`,
`source_site = site_name` and `is_active = True`. -/
def newRow (j : JobData) (now : PyDateTime) (site : String) : Row :=
  { title := j.title
    company_name := j.company_name
    job_type := j.job_type
    location := j.location
    description := j.description
    url := j.url
    contact_info := j.contact_info
    company_website := j.company_website
    salary_info := j.salary_info
    posted_date := j.posted_date
    scraped_date := now
    source_site := site
    is_active := true }

/-- `session.query(JobListing).filter_by(url=...).first()` followed by
the setattr loop: update the first row whose `url` matches. -/
def updateFirst (j : JobData) : List Row → List Row
  | [] => []
  | r :: rs =>
    if r.url == j.url then applyUpdate j r :: rs
    else r :: updateFirst j rs

/-- One iteration of the `for job_data in job_listings` loop
(lines 139-167) over the transaction's working view of the table:
look up an existing row by `url`; update it if found, else add a new row
(SQLAlchemy autoflush makes a pending insert from earlier in the batch
visible to a later lookup, which the working-view model reflects). -/
def upsertOne (now : PyDateTime) (site : String) (work : List Row)
    (j : JobData) : List Row :=
  if work.any (fun r => r.url == j.url) then updateFirst j work
  else work ++ [newRow j now site]

/-- The working view of the table after processing the first `k`
listings of the batch inside the (not yet committed) transaction. -/
def storePending (db : List Row) (listings : List JobData) (now : PyDateTime)
    (site : String) (k : Nat) : List Row :=
  (listings.take k).foldl (upsertOne now site) db

/-- Where, if anywhere, the `try` block of `_store_job_listings` raises:
`ok` — no exception (the batch commits);
`atListing i` — an exception while processing listing `i` (for example an
autoflush integrity error);
`atCommit` — `session.commit()` itself raises. -/
inductive StoreFault where
  | ok
  | atListing (i : Nat)
  | atCommit
  deriving DecidableEq, Repr

/-- `ScraperManager._store_job_listings(job_listings, site_name)`
(lines 129-175): all work happens on one session whose changes are only
made durable by the final `session.commit()`; the `except` branch calls
`session.rollback()`, which discards every pending change of the batch,
logs, and swallows the exception.  The result is the durable table
contents; the function is total — no exception propagates. -/
def storeJobListings (db : List Row) (listings : List JobData)
    (now : PyDateTime) (site : String) : StoreFault → List Row
  | .ok => storePending db listings now site listings.length
  | .atListing _ => db
  | .atCommit => db

/-! ## `ScraperManager.scrape_site` / `scrape_all_sites`
(scraper_manager.py lines 73-127) -/

/-- `ScraperManager.scrape_site(site_name)` (lines 73-99).
`registry` is the key set of `self.scrapers`; `run site` is the outcome
of the registered adapter's `scrape()` (`.error` = the call raised).
Returns the scraped listings and the resulting durable table: an unknown
site or a raising adapter yields `[]` with the table untouched; store
failures are swallowed inside `_store_job_listings`, so the listings are
still returned. -/
def scrape_site (registry : List String)
    (run : String → Except String (List JobData)) (db : List Row)
    (now : PyDateTime) (fault : StoreFault) (site : String) :
    List JobData × List Row :=
  if site ∈ registry then
    match run site with
    | .error _ => ([], db)
    | .ok listings => (listings, storeJobListings db listings now site fault)
  else ([], db)

/-- `ScraperManager.scrape_all_sites()` (lines 101-127): dispatch
`scrape_site` for every registered site and collect a name-keyed result
map (modelled as an association list in registry order; thread
interleaving only affects completion order, not the keyed contents).
Each site's table pass starts from `db`; the claims only concern the
returned map. -/
def scrape_all_sites (registry : List String)
    (run : String → Except String (List JobData)) (db : List Row)
    (now : PyDateTime) (faults : String → StoreFault) :
    List (String × List JobData) :=
  registry.map (fun site => (site, (scrape_site registry run db now (faults site) site).1))

/-- Number of stored rows whose `url` equals `u`. -/
def countUrl (db : List Row) (u : String) : Nat :=
  db.countP (fun r => r.url == u)

/-! ## Configuration (config.json shapes consumed by the scrapers) -/

/-- The `scraping_settings` mapping.  The source reads `request_delay`
and `max_pages_per_site` through `.get` with defaults 2 and 5; the model
carries the effective values. -/
structure ScrapingSettings where
  user_agent : String := "Mozilla/5.0"
  request_delay : Nat := 2
  max_pages_per_site : Nat := 5
  use_selenium_for_dynamic_sites : Bool := false
  deriving DecidableEq, Repr

/-- A site's `pagination` configuration block. -/
structure Pagination where
  enabled : Bool
  pattern : String
  deriving DecidableEq, Repr

/-- A site's configuration block (selectors are not carried: the fetch
environment below already yields the elements those selectors select). -/
structure SiteConfig where
  name : String
  base_url : String
  job_listings_url : String
  pagination : Pagination
  deriving DecidableEq, Repr

/-! ## BeautifulSoup elements and extraction
(base_scraper.py lines 115-142 and the adapters' per-item loops) -/

/-- A BeautifulSoup element found by `select_one`.  `contentsLen` is
`len(tag)` (the number of children), which is what Python truthiness
tests on a Tag evaluate; `textStripped` is `get_text(strip=True)` and
`textRaw` is `get_text()`; `href` is the `href` attribute. -/
structure Elem where
  contentsLen : Nat := 1
  textStripped : String := ""
  textRaw : String := ""
  href : Option String := none
  deriving DecidableEq, Repr

/-- Python truthiness of a `select_one` result: `None` is falsy, and a
Tag is falsy exactly when it has no children (`Tag.__len__`). -/
def elemTruthy : Option Elem → Bool
  | none => false
  | some e => e.contentsLen != 0

/-- `BaseScraper._extract_text` (lines 115-127): `None` for a missing
element, else `get_text(strip=True)`. -/
def extractText : Option Elem → Option String
  | none => none
  | some e => some e.textStripped

/-- `BaseScraper._extract_attribute(element, "href")` (lines 129-142):
`None` for a missing element, else `element.get("href")`. -/
def extractHref : Option Elem → Option String
  | none => none
  | some e => e.href

/-- `urllib.parse.urljoin(base, url)` restricted to the shapes the
adapters produce: `if not base: return url`, `if not url: return base`
(this includes `url is None` — CPython's falsiness test — which is the
load-bearing case for the claims); otherwise an absolute reference
replaces `base` and a relative one is resolved against it (resolution
is abbreviated to concatenation; no claim depends on the joined text). -/
def pyUrljoin (base : String) (url : Option String) : Option String :=
  if base = "" then url
  else
    match url with
    | none => some base
    | some u =>
      if u = "" then some base
      else if "http://".isPrefixOf u || "https://".isPrefixOf u then some u
      else some (base ++ u)

/-- Python truthiness of the `description_url` value (`None` and the
empty string are falsy). -/
def urlTruthy : Option String → Bool
  | none => false
  | some u => u != ""

/-- `x or "Unknown Company"` applied to `_extract_text(company_name_elem)`
(Python `or` replaces both `None` and `""`). -/
def companyOrUnknown : Option String → String
  | none => "Unknown Company"
  | some t => if t = "" then "Unknown Company" else t

/-- An index-page listing container with the elements the configured
selectors find in it (`container.select_one(...)` results). -/
structure Container where
  job_title : Option Elem
  company_name : Option Elem
  job_type : Option Elem
  location : Option Elem
  posted_date : Option Elem
  description_link : Option Elem
  deriving DecidableEq, Repr

/-- The pure text-mining helpers `_extract_contact_info`,
`_extract_company_website` and `_extract_salary_info` (regular-expression
searches over the description text, identical in both adapters up to the
excluded-domain list).  They are pure `String → Option String` functions;
the claims hold for every choice of them, so the model takes them as a
parameter.  `none` models a Python `None` return. -/
structure Extractors where
  contact : String → Option String
  website : String → Option String
  salary : String → Option String

/-- Python truthiness filter for `if contact_info:` etc. — an extractor
result is only stored when truthy. -/
def keepTruthy : Option String → Option String
  | none => none
  | some s => if s = "" then none else some s

/-- The adapters' view of the outside world: `fetchIndex u` is
`_get_page_content(u)` followed by `soup.select(selectors["job_container"])`
(`.error` = the fetch raised), and `fetchDetail u` is
`_get_page_content(u)` followed by
`select_one(selectors["description_selector"])`. -/
structure ScrapeEnv where
  fetchIndex : String → Except Unit (List Container)
  fetchDetail : String → Except Unit (Option Elem)

/-- The shared per-container body of the adapters' item loops
(weworkremotely_scraper.py lines 51-109, flexjobs_scraper.py lines 66-126;
the two are textually identical).  Returns `none` when the item is
skipped by the guard `if not job_title_elem or not description_url`.
A detail-page fetch failure or a missing/falsy description element
leaves the listing with its index-page fields only (the inner
`try/except` at WWR lines 80-102). -/
def processContainer (base_url : String) (now : PyDateTime) (env : ScrapeEnv)
    (ex : Extractors) (c : Container) : Option JobData :=
  let description_url := pyUrljoin base_url (extractHref c.description_link)
  if !elemTruthy c.job_title || !urlTruthy description_url then none
  else
    let u := description_url.getD ""
    let j0 : JobData :=
      { title := (extractText c.job_title).getD ""
        company_name := companyOrUnknown (extractText c.company_name)
        job_type := extractText c.job_type
        location := extractText c.location
        url := u
        posted_date := parseDate now (extractText c.posted_date) none }
    match env.fetchDetail u with
    | .error _ => some j0
    | .ok descElem =>
      if elemTruthy descElem then
        match descElem with
        | some e =>
          some { j0 with
            description := some e.textStripped
            contact_info := keepTruthy (ex.contact e.textRaw)
            company_website := keepTruthy (ex.website e.textRaw)
            salary_info := keepTruthy (ex.salary e.textRaw) }
        | none => some j0
      else some j0

/-! ## `WeWorkRemotelyScraper.scrape` (weworkremotely_scraper.py lines 24-116) -/

/-- `WeWorkRemotelyScraper.scrape()`.  Fetches the configured
`job_listings_url` exactly once (no pagination code exists in this
adapter), then processes each container.  Returns the emitted records
together with the trace of index-page URLs requested.  A fetch failure
is caught by the outer `except` and yields the empty list. -/
def wwrScrape (cfg : SiteConfig) (settings : ScrapingSettings)
    (env : ScrapeEnv) (ex : Extractors) (now : PyDateTime) :
    List JobData × List String :=
  let _ := settings
  match env.fetchIndex cfg.job_listings_url with
  | .error _ => ([], [cfg.job_listings_url])
  | .ok containers =>
    if containers.isEmpty then ([], [cfg.job_listings_url])
    else
      (containers.filterMap (processContainer cfg.base_url now env ex),
       [cfg.job_listings_url])

/-! ## `FlexJobsScraper.scrape` (flexjobs_scraper.py lines 24-138) -/

/-- `self.site_config["pagination"]["pattern"].format(page_num=n)`:
substitute the page number into the pagination URL template. -/
def formatPageUrl (pattern : String) (n : Nat) : String :=
  pattern.replace "\x7bpage_num\x7d" (toString n)

/-- The page-URL computation of the FlexJobs loop (lines 43-49): page 1
uses the configured listing URL verbatim, later pages substitute the
page number into the pagination pattern. -/
def fjPageUrl (cfg : SiteConfig) (pageNum : Nat) : String :=
  if pageNum == 1 then cfg.job_listings_url
  else formatPageUrl cfg.pagination.pattern pageNum

/-- The body of FlexJobs' `for page_num in range(1, max_pages + 1)` loop
(lines 42-131), with `fuel` the number of page iterations the range still
allows.  Accumulates emitted records and the trace of
`(page number, page URL)` index requests.  Exits:
range exhausted (fuel 0); pagination disabled for page ≥ 2 (lines 47-48,
before any request); index fetch raised (outer `except`, line 135 —
accumulated listings are returned); no containers (lines 59-61); fewer
than 10 containers after processing (the last-page heuristic,
lines 128-131). -/
def fjLoop (cfg : SiteConfig) (env : ScrapeEnv) (ex : Extractors)
    (now : PyDateTime) :
    Nat → Nat → List JobData → List (Nat × String) →
    List JobData × List (Nat × String)
  | 0, _, acc, tr => (acc, tr)
  | fuel + 1, pageNum, acc, tr =>
    if pageNum == 1 || cfg.pagination.enabled then
      match env.fetchIndex (fjPageUrl cfg pageNum) with
      | .error _ => (acc, tr ++ [(pageNum, fjPageUrl cfg pageNum)])
      | .ok containers =>
        if containers.isEmpty then (acc, tr ++ [(pageNum, fjPageUrl cfg pageNum)])
        else
          if containers.length < 10 then
            (acc ++ containers.filterMap (processContainer cfg.base_url now env ex),
             tr ++ [(pageNum, fjPageUrl cfg pageNum)])
          else
            fjLoop cfg env ex now fuel (pageNum + 1)
              (acc ++ containers.filterMap (processContainer cfg.base_url now env ex))
              (tr ++ [(pageNum, fjPageUrl cfg pageNum)])
    else (acc, tr)

/-- `FlexJobsScraper.scrape()`: run the page loop starting at page 1
with the range bound `max_pages = scraping_settings.get("max_pages_per_site", 5)`.
Returns the emitted records and the trace of index-page requests. -/
def fjScrape (cfg : SiteConfig) (settings : ScrapingSettings)
    (env : ScrapeEnv) (ex : Extractors) (now : PyDateTime) :
    List JobData × List (Nat × String) :=
  fjLoop cfg env ex now settings.max_pages_per_site 1 [] []

/-! ## `BaseScraper._get_page_content` (base_scraper.py lines 83-113) -/

/-- Observable events of `_get_page_content`: an HTTP or browser page
request, and a `time.sleep` (seconds; rational, because the politeness
delay adds a `random.uniform(0, 1)` jitter to the configured delay). -/
inductive FetchEvent where
  | request (url : String)
  | sleep (seconds : ℚ)
  deriving DecidableEq, Repr

/-- Whether an event is a sleep. -/
def isSleepEvent : FetchEvent → Bool
  | .sleep _ => true
  | .request _ => false

/-- The environment of one `_get_page_content` call: the outcome of the
network/browser request for a URL (`.error` = `requests` raised or
`raise_for_status` fired, or the driver raised) and the jitter sample
drawn by `random.uniform(0, 1)`. -/
structure PageEnv where
  httpGet : String → Except Unit String
  driverGet : String → Except Unit String
  jitter : ℚ

/-- `BaseScraper._get_page_content(url, use_selenium)`: returns the page
content (or the propagated exception — the `except` branch at lines
111-113 logs and re-raises) together with the ordered event trace.
On the Selenium path a fixed 3-second settle sleep follows the request;
on success of either path `time.sleep(request_delay + uniform(0, 1))`
runs before returning (lines 106-108); on failure the exception
propagates immediately and no politeness sleep happens. -/
def getPageContent (settings : ScrapingSettings) (env : PageEnv)
    (url : String) (use_selenium : Bool) :
    Except Unit String × List FetchEvent :=
  if use_selenium || settings.use_selenium_for_dynamic_sites then
    match env.driverGet url with
    | .error e => (.error e, [.request url])
    | .ok html =>
      (.ok html,
       [.request url, .sleep 3,
        .sleep ((settings.request_delay : ℚ) + env.jitter)])
  else
    match env.httpGet url with
    | .error e => (.error e, [.request url])
    | .ok html =>
      (.ok html, [.request url, .sleep ((settings.request_delay : ℚ) + env.jitter)])

/-! ## Selenium driver lifecycle (base_scraper.py lines 49-81) -/

/-- The browser-resource state held by a scraper instance: `self.driver`
(`none` = uninitialized or closed) plus a count of browser processes
ever spawned by this instance (each spawn gets a fresh handle id). -/
structure DriverState where
  driver : Option Nat := none
  spawned : Nat := 0
  deriving DecidableEq, Repr

/-- `BaseScraper._get_selenium_driver` (lines 49-71): if `self.driver`
is already set, return the cached handle without touching anything;
otherwise try to start a browser (`spawnOk` is whether
`webdriver.Chrome(...)` succeeds), caching and returning the new handle,
or re-raising (`.error`) with the state unchanged. -/
def getSeleniumDriver (st : DriverState) (spawnOk : Bool) :
    DriverState × Except Unit Nat :=
  match st.driver with
  | some d => (st, .ok d)
  | none =>
    if spawnOk then
      ({ driver := some st.spawned, spawned := st.spawned + 1 }, .ok st.spawned)
    else (st, .error ())

/-- `BaseScraper._close_selenium_driver` (lines 73-81): a no-op when
`self.driver` is `None`; otherwise `driver.quit()` is attempted
(`quitOk` — any exception is caught and logged) and the `finally`
block always sets `self.driver = None`. -/
def closeSeleniumDriver (st : DriverState) (quitOk : Bool) : DriverState :=
  match st.driver with
  | none => st
  | some _ =>
    let _ := quitOk
    { st with driver := none }

/-! ## Helper lemmas about the store operations -/

theorem applyUpdate_url (j : JobData) (r : Row) :
    (applyUpdate j r).url = r.url := rfl

theorem countUrl_updateFirst (j : JobData) (u : String) (l : List Row) :
    countUrl (updateFirst j l) u = countUrl l u := by
  induction l with
  | nil => rfl
  | cons r rs ih =>
    unfold updateFirst
    by_cases h : (r.url == j.url) = true
    · rw [if_pos h]
      have hurl : (applyUpdate j r).url = r.url := rfl
      simp [countUrl, List.countP_cons, hurl]
    · rw [if_neg h]
      simp only [countUrl, List.countP_cons] at ih ⊢
      omega

theorem length_updateFirst (j : JobData) (l : List Row) :
    (updateFirst j l).length = l.length := by
  induction l with
  | nil => rfl
  | cons r rs ih =>
    by_cases h : (r.url == j.url) = true
    · simp [updateFirst, h]
    · simp [updateFirst, h, ih]

theorem any_url_iff (l : List Row) (u : String) :
    (l.any (fun r => r.url == u) = true) ↔ 0 < countUrl l u := by
  rw [countUrl, List.countP_pos_iff, List.any_eq_true]

theorem countUrl_append (l l' : List Row) (u : String) :
    countUrl (l ++ l') u = countUrl l u + countUrl l' u := by
  simp [countUrl, List.countP_append]

theorem countUrl_upsertOne_self (now : PyDateTime) (site : String)
    (l : List Row) (j : JobData) (hc : countUrl l j.url ≤ 1) :
    countUrl (upsertOne now site l j) j.url = 1 := by
  unfold upsertOne
  by_cases h : (l.any (fun r => r.url == j.url)) = true
  · rw [if_pos h, countUrl_updateFirst]
    have := (any_url_iff l j.url).mp h
    omega
  · rw [if_neg h, countUrl_append]
    have h0 : countUrl l j.url = 0 := by
      by_contra hne
      exact h ((any_url_iff l j.url).mpr (by omega))
    have h1 : countUrl [newRow j now site] j.url = 1 := by
      simp [countUrl, List.countP_cons, newRow]
    omega

theorem countUrl_upsertOne_other (now : PyDateTime) (site : String)
    (l : List Row) (j : JobData) (u : String) (hne : j.url ≠ u) :
    countUrl (upsertOne now site l j) u = countUrl l u := by
  unfold upsertOne
  by_cases h : (l.any (fun r => r.url == j.url)) = true
  · rw [if_pos h, countUrl_updateFirst]
  · rw [if_neg h, countUrl_append]
    have : countUrl [newRow j now site] u = 0 := by
      simp [countUrl, List.countP_cons, newRow]
      simpa using hne
    omega

theorem length_upsertOne_found (now : PyDateTime) (site : String)
    (l : List Row) (j : JobData) (h : 0 < countUrl l j.url) :
    (upsertOne now site l j).length = l.length := by
  unfold upsertOne
  rw [if_pos ((any_url_iff l j.url).mpr h), length_updateFirst]

theorem length_upsertOne_new (now : PyDateTime) (site : String)
    (l : List Row) (j : JobData) (h : countUrl l j.url = 0) :
    (upsertOne now site l j).length = l.length + 1 := by
  unfold upsertOne
  have hne : ¬ (l.any (fun r => r.url == j.url) = true) := by
    rw [any_url_iff]; omega
  rw [if_neg hne, List.length_append]
  simp

theorem upsertOne_found (now : PyDateTime) (site : String) (l : List Row)
    (j : JobData) (h : (l.any (fun x => x.url == j.url)) = true) :
    upsertOne now site l j = updateFirst j l := by
  unfold upsertOne
  rw [if_pos h]

theorem upsertOne_new (now : PyDateTime) (site : String) (l : List Row)
    (j : JobData) (h : ¬ ((l.any (fun x => x.url == j.url)) = true)) :
    upsertOne now site l j = l ++ [newRow j now site] := by
  unfold upsertOne
  rw [if_neg h]

/-- The stored row resulting from an update reflects exactly the keys
present in the adapter record (its "second write"). -/
def Reflects (j : JobData) (r : Row) : Prop :=
  r.title = j.title ∧ r.company_name = j.company_name ∧
  r.job_type = j.job_type ∧ r.location = j.location ∧
  r.posted_date = j.posted_date ∧
  (∀ s, j.description = some s → r.description = some s) ∧
  (∀ s, j.contact_info = some s → r.contact_info = some s) ∧
  (∀ s, j.company_website = some s → r.company_website = some s) ∧
  (∀ s, j.salary_info = some s → r.salary_info = some s)

theorem applyUpdate_reflects (j : JobData) (r : Row) :
    Reflects j (applyUpdate j r) := by
  refine ⟨rfl, rfl, rfl, rfl, rfl, ?_, ?_, ?_, ?_⟩ <;>
    intro s hs <;> simp [applyUpdate, hs]

theorem newRow_reflects (j : JobData) (now : PyDateTime) (site : String) :
    Reflects j (newRow j now site) := by
  refine ⟨rfl, rfl, rfl, rfl, rfl, ?_, ?_, ?_, ?_⟩ <;>
    intro s hs <;> simp [newRow, hs]

theorem updateFirst_mem (j : JobData) (l : List Row)
    (hc : countUrl l j.url ≤ 1) :
    ∀ r' ∈ updateFirst j l, r'.url = j.url →
      ∃ r, r ∈ l ∧ r.url = j.url ∧ r' = applyUpdate j r := by
  induction l with
  | nil => intro r' hr'; simp [updateFirst] at hr'
  | cons r rs ih =>
    intro r' hr' hu
    unfold updateFirst at hr'
    by_cases h : (r.url == j.url) = true
    · rw [if_pos h] at hr'
      rcases List.mem_cons.mp hr' with h1 | h2
      · exact ⟨r, List.mem_cons_self r rs, by simpa using h, h1⟩
      · exfalso
        have hcnt : countUrl (r :: rs) j.url = countUrl rs j.url + 1 := by
          simp [countUrl, List.countP_cons, h]
        have hz : countUrl rs j.url = 0 := by omega
        have hmem := (List.countP_eq_zero).mp hz r' h2
        simp [hu] at hmem
    · rw [if_neg h] at hr'
      rcases List.mem_cons.mp hr' with h1 | h2
      · exfalso; rw [h1] at hu; simp [hu] at h
      · have hc' : countUrl rs j.url ≤ 1 := by
          have hcnt : countUrl (r :: rs) j.url = countUrl rs j.url := by
            simp [countUrl, List.countP_cons, h]
          omega
        obtain ⟨r0, hr0, hr0u, hr0e⟩ := ih hc' r' h2 hu
        exact ⟨r0, List.mem_cons_of_mem r hr0, hr0u, hr0e⟩

theorem updateFirst_mem_new (j : JobData) (l : List Row)
    (now : PyDateTime) (site : String) (hz : countUrl l j.url = 0) :
    ∀ r' ∈ l ++ [newRow j now site], r'.url = j.url →
      r' = newRow j now site := by
  intro r' hr' hu
  rcases List.mem_append.mp hr' with h1 | h2
  · exfalso
    have := (List.countP_eq_zero).mp hz r' h1
    simp [hu] at this
  · simpa using h2

theorem updateFirst_append (j : JobData) (pre post : List Row) (r : Row)
    (hpre : ∀ x ∈ pre, x.url ≠ j.url) (hr : r.url = j.url) :
    updateFirst j (pre ++ r :: post) = pre ++ applyUpdate j r :: post := by
  induction pre with
  | nil =>
    simp only [List.nil_append]
    unfold updateFirst
    rw [if_pos (by simpa using hr)]
  | cons x xs ih =>
    have hx : ¬ (x.url == j.url) = true := by
      simpa using hpre x (List.mem_cons_self x xs)
    have hxs : ∀ y ∈ xs, y.url ≠ j.url :=
      fun y hy => hpre y (List.mem_cons_of_mem x hy)
    show updateFirst j (x :: (xs ++ r :: post)) = x :: (xs ++ applyUpdate j r :: post)
    unfold updateFirst
    rw [if_neg hx, ih hxs]

/-- Every index request the FlexJobs page loop adds to the trace carries
a page number below `pageNum + fuel` (the remaining range of
`range(1, max_pages + 1)`). -/
theorem fjLoop_trace_bound (cfg : SiteConfig) (env : ScrapeEnv)
    (ex : Extractors) (now : PyDateTime) :
    ∀ fuel pageNum acc tr n u,
      (n, u) ∈ (fjLoop cfg env ex now fuel pageNum acc tr).2 →
      (n, u) ∈ tr ∨ n < pageNum + fuel := by
  intro fuel
  induction fuel with
  | zero => intro pageNum acc tr n u h; exact Or.inl h
  | succ fuel ih =>
    intro pageNum acc tr n u h
    unfold fjLoop at h
    by_cases hcond : (pageNum == 1 || cfg.pagination.enabled) = true
    · rw [if_pos hcond] at h
      rcases hfetch : env.fetchIndex (fjPageUrl cfg pageNum) with e | containers
      · simp only [hfetch] at h
        rcases List.mem_append.mp h with h1 | h2
        · exact Or.inl h1
        · simp at h2; omega
      · simp only [hfetch] at h
        by_cases hemp : containers.isEmpty = true
        · rw [if_pos hemp] at h
          rcases List.mem_append.mp h with h1 | h2
          · exact Or.inl h1
          · simp at h2; omega
        · rw [if_neg hemp] at h
          by_cases hlen : containers.length < 10
          · rw [if_pos hlen] at h
            rcases List.mem_append.mp h with h1 | h2
            · exact Or.inl h1
            · simp at h2; omega
          · rw [if_neg hlen] at h
            rcases ih (pageNum + 1) _ _ n u h with h1 | h2
            · rcases List.mem_append.mp h1 with h3 | h4
              · exact Or.inl h3
              · simp at h4; omega
            · omega
    · rw [if_neg hcond] at h
      exact Or.inl h

/-- Looking a key up in a map built from a key list by pairing each key
with a function value. -/
theorem lookup_map_pair (f : String → List JobData) (l : List String)
    (a : String) :
    (l.map (fun s => (s, f s))).lookup a =
      if a ∈ l then some (f a) else none := by
  induction l with
  | nil => simp
  | cons s ss ih =>
    by_cases h : a = s
    · subst h; simp [List.lookup]
    · have hne : (a == s) = false := by simpa using h
      simp [List.lookup, hne, ih, h]

/-! ## Concrete fixtures used by witnesses and counterexamples -/

/-- A stored row fixture. -/
def rowA : Row :=
  { title := "T0", company_name := "C0", job_type := none, location := none,
    description := none, url := "https://example.org/a", contact_info := none,
    company_website := none, salary_info := none, posted_date := none,
    scraped_date := ⟨0, 0⟩, source_site := "S", is_active := true }

/-- An adapter record with the same `url` as `rowA`. -/
def jobA1 : JobData :=
  { title := "T1", company_name := "C1", job_type := none, location := none,
    url := "https://example.org/a", posted_date := none }

/-- A second adapter record with the same `url` as `rowA` and different
field values. -/
def jobA2 : JobData :=
  { title := "T2", company_name := "C2", job_type := some "Full-Time",
    location := some "Remote", url := "https://example.org/a",
    posted_date := none, description := some "D2" }

/-- An adapter record with a fresh `url`. -/
def jobNew : JobData :=
  { title := "TN", company_name := "CN", job_type := none, location := none,
    url := "https://example.org/b", posted_date := none }

/-- A stored row carrying a description and provenance fields, used to
exhibit the update path's frame. -/
def cexRow : Row :=
  { title := "Old Title", company_name := "Old Co", job_type := none,
    location := none, description := some "old description",
    url := "https://example.org/job/1", contact_info := none,
    company_website := none, salary_info := none, posted_date := none,
    scraped_date := ⟨100, 0⟩, source_site := "We Work Remotely",
    is_active := true }

/-- An adapter record for the same `url` as `cexRow` whose dict carries
no `description` key. -/
def cexJob : JobData :=
  { title := "New Title", company_name := "New Co", job_type := none,
    location := none, url := "https://example.org/job/1",
    posted_date := none }

/-! ## The claims -/

/-- C1: Upsert idempotence by URL — persisting two records with the same
`url` (in two separate calls) leaves exactly one stored row for that
`url`, whose fields reflect the second write; and a batch of one
matching and one fresh record grows the store by exactly one row. -/
theorem upsert_idempotent_by_url
    (db : List Row) (j1 j2 jM jN : JobData)
    (now1 now2 now3 : PyDateTime) (site1 site2 site3 : String)
    (hu : j1.url = j2.url)
    (hdb : countUrl db j2.url ≤ 1)
    (hM : 1 ≤ countUrl db jM.url)
    (hN : countUrl db jN.url = 0) :
    countUrl (storeJobListings (storeJobListings db [j1] now1 site1 .ok)
        [j2] now2 site2 .ok) j2.url = 1 ∧
    (∀ r ∈ storeJobListings (storeJobListings db [j1] now1 site1 .ok)
        [j2] now2 site2 .ok, r.url = j2.url → Reflects j2 r) ∧
    (storeJobListings db [jM, jN] now3 site3 .ok).length = db.length + 1 := by
  have hdb1 : countUrl (upsertOne now1 site1 db j1) j2.url = 1 := by
    rw [← hu]
    exact countUrl_upsertOne_self now1 site1 db j1 (by rw [hu]; exact hdb)
  refine ⟨?_, ?_, ?_⟩
  · show countUrl (upsertOne now2 site2 (upsertOne now1 site1 db j1) j2) j2.url = 1
    exact countUrl_upsertOne_self now2 site2 _ j2 hdb1.le
  · intro r hr hru
    have hmem : ((upsertOne now1 site1 db j1).any (fun x => x.url == j2.url)) = true :=
      (any_url_iff _ _).mpr (by omega)
    have hdb2 : storeJobListings (storeJobListings db [j1] now1 site1 .ok)
        [j2] now2 site2 .ok = updateFirst j2 (upsertOne now1 site1 db j1) := by
      show upsertOne now2 site2 (upsertOne now1 site1 db j1) j2 = _
      exact upsertOne_found now2 site2 _ j2 hmem
    rw [hdb2] at hr
    obtain ⟨r0, _, _, hre⟩ := updateFirst_mem j2 _ hdb1.le r hr hru
    rw [hre]
    exact applyUpdate_reflects j2 r0
  · show (upsertOne now3 site3 (upsertOne now3 site3 db jM) jN).length = db.length + 1
    have hlen1 : (upsertOne now3 site3 db jM).length = db.length :=
      length_upsertOne_found now3 site3 db jM (by omega)
    have hcnt : countUrl (upsertOne now3 site3 db jM) jN.url = countUrl db jN.url := by
      apply countUrl_upsertOne_other
      intro he
      rw [he] at hM
      omega
    have hlen2 := length_upsertOne_new now3 site3 (upsertOne now3 site3 db jM) jN
      (by rw [hcnt, hN])
    rw [hlen2, hlen1]

/-- Witness for C1 at concrete inputs. -/
theorem upsert_idempotent_by_url_witness :
    countUrl (storeJobListings (storeJobListings [rowA] [jobA1] ⟨1, 0⟩ "S1" .ok)
        [jobA2] ⟨2, 0⟩ "S2" .ok) jobA2.url = 1 ∧
    (storeJobListings [rowA] [jobA1, jobNew] ⟨3, 0⟩ "S3" .ok).length = 1 + 1 := by
  have h := upsert_idempotent_by_url [rowA] jobA1 jobA2 jobA1 jobNew
    ⟨1, 0⟩ ⟨2, 0⟩ ⟨3, 0⟩ "S1" "S2" "S3"
    (by decide) (by decide) (by decide) (by decide)
  exact ⟨h.1, h.2.2⟩

/-- C5: Persistence atomicity — one persist call writes the whole batch
inside a single transaction: when any step of the batch (a listing or the
commit) fails, `_store_job_listings` leaves the store exactly as it was
(no partial writes) and returns normally; when nothing fails, the whole
batch is the fold of the per-listing upserts. -/
theorem store_batch_atomic (db : List Row) (listings : List JobData)
    (now : PyDateTime) (site : String) (fault : StoreFault)
    (h : fault ≠ StoreFault.ok) :
    storeJobListings db listings now site fault = db ∧
    storeJobListings db listings now site .ok =
      listings.foldl (upsertOne now site) db := by
  constructor
  · cases fault with
    | ok => exact absurd rfl h
    | atListing i => rfl
    | atCommit => rfl
  · show storePending db listings now site listings.length = _
    unfold storePending
    rw [List.take_length]

/-- Witness for C5: a commit failure leaves the concrete store unchanged. -/
theorem store_batch_atomic_witness :
    storeJobListings [rowA] [jobNew] ⟨5, 0⟩ "S" .atCommit = [rowA] :=
  (store_batch_atomic [rowA] [jobNew] ⟨5, 0⟩ "S" .atCommit (by decide)).1

/-- C7 counterexample: at a concrete store and record, the update path
neither refreshes `scraped_date` to the persistence time nor overwrites
`description` when the record carries no description key — refuting
"overwrites all fields except url" and "`scraped_date` set at persistence
time on the update path". -/
theorem store_update_frame_cex :
    ¬ (∀ r' ∈ storeJobListings [cexRow] [cexJob] ⟨200, 0⟩ "We Work Remotely" .ok,
        r'.url = cexJob.url →
          r'.scraped_date = ⟨200, 0⟩ ∧ r'.description = cexJob.description) := by
  decide

/-- C7 (amended): when a row is found by `url`, the persist operation
overwrites exactly the fields present in the adapter record (never
`url`); `scraped_date`, `source_site` and `is_active` are left unchanged
on the update path, and are set by the orchestrator (to now, the site
name and true) only on the insert path; the adapter record has no such
fields to supply. -/
theorem store_update_frame (dbPre dbPost db2 : List Row) (r : Row)
    (j j2 : JobData) (now now2 : PyDateTime) (site site2 : String)
    (hpre : ∀ x ∈ dbPre, x.url ≠ j.url) (hr : r.url = j.url)
    (h2 : countUrl db2 j2.url = 0) :
    storeJobListings (dbPre ++ r :: dbPost) [j] now site .ok =
      dbPre ++ applyUpdate j r :: dbPost ∧
    (applyUpdate j r).url = r.url ∧
    (applyUpdate j r).scraped_date = r.scraped_date ∧
    (applyUpdate j r).source_site = r.source_site ∧
    (applyUpdate j r).is_active = r.is_active ∧
    Reflects j (applyUpdate j r) ∧
    (j.description = none → (applyUpdate j r).description = r.description) ∧
    (j.contact_info = none → (applyUpdate j r).contact_info = r.contact_info) ∧
    (j.company_website = none → (applyUpdate j r).company_website = r.company_website) ∧
    (j.salary_info = none → (applyUpdate j r).salary_info = r.salary_info) ∧
    storeJobListings db2 [j2] now2 site2 .ok = db2 ++ [newRow j2 now2 site2] ∧
    (newRow j2 now2 site2).scraped_date = now2 ∧
    (newRow j2 now2 site2).source_site = site2 ∧
    (newRow j2 now2 site2).is_active = true := by
  refine ⟨?_, rfl, rfl, rfl, rfl, applyUpdate_reflects j r, ?_, ?_, ?_, ?_, ?_, rfl, rfl, rfl⟩
  · show upsertOne now site (dbPre ++ r :: dbPost) j = dbPre ++ applyUpdate j r :: dbPost
    have hany : ((dbPre ++ r :: dbPost).any (fun x => x.url == j.url)) = true := by
      rw [List.any_eq_true]
      exact ⟨r, by simp, by simp [hr]⟩
    rw [upsertOne_found now site _ j hany]
    exact updateFirst_append j dbPre dbPost r hpre hr
  · intro h; simp [applyUpdate, h]
  · intro h; simp [applyUpdate, h]
  · intro h; simp [applyUpdate, h]
  · intro h; simp [applyUpdate, h]
  · show upsertOne now2 site2 db2 j2 = db2 ++ [newRow j2 now2 site2]
    have hany : ¬ ((db2.any (fun x => x.url == j2.url)) = true) := by
      rw [any_url_iff]
      omega
    exact upsertOne_new now2 site2 db2 j2 hany

/-- Witness for C7 (amended) at concrete inputs. -/
theorem store_update_frame_witness :
    storeJobListings [cexRow] [cexJob] ⟨300, 0⟩ "FlexJobs" .ok =
      [applyUpdate cexJob cexRow] ∧
    storeJobListings [] [jobNew] ⟨301, 0⟩ "FlexJobs" .ok =
      [newRow jobNew ⟨301, 0⟩ "FlexJobs"] := by
  have h := store_update_frame [] [] [] cexRow cexJob jobNew
    ⟨300, 0⟩ ⟨301, 0⟩ "FlexJobs" "FlexJobs"
    (by intro x hx; simp at hx) (by decide) (by decide)
  exact ⟨h.1, h.2.2.2.2.2.2.2.2.2.2.1⟩

/-- An index container whose title element is present but whose detail
link element is missing — the failing input for C2. -/
def cexContainer : Container :=
  { job_title := some { contentsLen := 1, textStripped := "Software Engineer",
                        textRaw := "Software Engineer" }
    company_name := some { contentsLen := 1, textStripped := "Acme",
                           textRaw := "Acme" }
    job_type := none
    location := none
    posted_date := none
    description_link := none }

/-- The We Work Remotely site configuration fixture. -/
def cexSiteConfig : SiteConfig :=
  { name := "We Work Remotely"
    base_url := "https://weworkremotely.com"
    job_listings_url := "https://weworkremotely.com/remote-jobs"
    pagination := { enabled := false, pattern := "" } }

/-- An environment whose index page yields exactly `cexContainer` and
whose detail fetches fail. -/
def cexEnv : ScrapeEnv :=
  { fetchIndex := fun _ => .ok [cexContainer]
    fetchDetail := fun _ => .error () }

/-- Extraction helpers that find nothing. -/
def noExtractors : Extractors :=
  { contact := fun _ => none
    website := fun _ => none
    salary := fun _ => none }

/-- C2: the source intends to skip an item whose detail link is missing
(`# Skip if we can't get the essential information`), but
`urljoin(base_url, None)` returns `base_url`, so the truthiness guard
never fires: at the failing input (title present, detail link absent)
the record IS emitted, with `url` equal to the site's base URL — the
item is not skipped as the claim and the code's own comment state. -/
theorem wwr_missing_detail_link_emitted :
    (wwrScrape cexSiteConfig {} cexEnv noExtractors ⟨0, 0⟩).1.map (fun j => j.url) =
      ["https://weworkremotely.com"] ∧
    (wwrScrape cexSiteConfig {} cexEnv noExtractors ⟨0, 0⟩).1.length = 1 := by
  decide

/-- C3: FlexJobs pagination terminates — when the page-1 response yields
fewer than 10 containers, `scrape()` returns exactly the page-1 listings
and the only index request is page 1 (page 2 is never requested, even
with `max_pages_per_site > 1`); and in every run, no index page with a
page number above `max_pages_per_site` is ever requested. -/
theorem fj_pagination_terminates
    (cfg : SiteConfig) (settings : ScrapingSettings) (env : ScrapeEnv)
    (ex : Extractors) (now : PyDateTime) (cs : List Container)
    (hmax : 1 ≤ settings.max_pages_per_site)
    (hfetch : env.fetchIndex cfg.job_listings_url = .ok cs)
    (hlen : cs.length < 10) :
    fjScrape cfg settings env ex now =
      (cs.filterMap (processContainer cfg.base_url now env ex),
       [(1, cfg.job_listings_url)]) ∧
    (∀ env' : ScrapeEnv, ∀ n : Nat, ∀ u : String,
      (n, u) ∈ (fjScrape cfg settings env' ex now).2 →
      n ≤ settings.max_pages_per_site) := by
  constructor
  · obtain ⟨k, hk⟩ : ∃ k, settings.max_pages_per_site = k + 1 :=
      ⟨settings.max_pages_per_site - 1, by omega⟩
    show fjLoop cfg env ex now settings.max_pages_per_site 1 [] [] = _
    rw [hk]
    unfold fjLoop
    have hcond : ((1 : Nat) == 1 || cfg.pagination.enabled) = true := by simp
    rw [if_pos hcond]
    have hurl : fjPageUrl cfg 1 = cfg.job_listings_url := rfl
    rw [hurl]
    simp only [hfetch]
    by_cases hemp : cs.isEmpty = true
    · rw [if_pos hemp]
      have hnil : cs = [] := List.isEmpty_iff.mp hemp
      subst hnil
      simp [fjPageUrl]
    · rw [if_neg hemp, if_pos hlen]
      simp [fjPageUrl]
  · intro env' n u h
    have h' : (n, u) ∈ (fjLoop cfg env' ex now settings.max_pages_per_site 1 [] []).2 := h
    rcases fjLoop_trace_bound cfg env' ex now settings.max_pages_per_site 1 [] [] n u h'
      with h1 | h2
    · simp at h1
    · omega

/-- The FlexJobs site configuration fixture. -/
def fjCfg : SiteConfig :=
  { name := "FlexJobs"
    base_url := "https://www.flexjobs.com"
    job_listings_url := "https://www.flexjobs.com/search?joblocations=remote"
    pagination := { enabled := true,
                    pattern := "https://www.flexjobs.com/search?page=\x7bpage_num\x7d" } }

/-- An index container with both title and detail link present. -/
def containerW : Container :=
  { job_title := some { contentsLen := 1, textStripped := "Data Entry Specialist",
                        textRaw := "Data Entry Specialist" }
    company_name := some { contentsLen := 1, textStripped := "Acme",
                           textRaw := "Acme" }
    job_type := none
    location := none
    posted_date := none
    description_link := some { contentsLen := 1, textStripped := "", textRaw := "",
                               href := some "https://www.flexjobs.com/jobs/1" } }

/-- An environment whose every index request yields one container. -/
def fjEnvW : ScrapeEnv :=
  { fetchIndex := fun _ => .ok [containerW]
    fetchDetail := fun _ => .error () }

/-- Witness for C3: one concrete page-1 response with a single container
(below the threshold of 10) while `max_pages_per_site` is 5. -/
theorem fj_pagination_terminates_witness :
    fjScrape fjCfg {} fjEnvW noExtractors ⟨0, 0⟩ =
      ([containerW].filterMap (processContainer fjCfg.base_url ⟨0, 0⟩ fjEnvW noExtractors),
       [(1, fjCfg.job_listings_url)]) :=
  (fj_pagination_terminates fjCfg {} fjEnvW noExtractors ⟨0, 0⟩ [containerW]
    (by decide) rfl (by decide)).1

/-- C4: `scrape_all_sites` isolation — the result map has an entry for
every registered site; a site whose adapter throws maps to the empty
list, and a site whose adapter returns 3 listings maps to exactly those
listings, quantified over everything else (so one site's failure cannot
change another site's entry). -/
theorem scrape_all_sites_isolation
    (registry : List String) (run : String → Except String (List JobData))
    (db : List Row) (now : PyDateTime) (faults : String → StoreFault)
    (A B : String) (e : String) (bs : List JobData)
    (hA : A ∈ registry) (hB : B ∈ registry)
    (hrunA : run A = .error e) (hrunB : run B = .ok bs)
    (_hlen : bs.length = 3) :
    (scrape_all_sites registry run db now faults).lookup A = some [] ∧
    (scrape_all_sites registry run db now faults).lookup B = some bs ∧
    (∀ s ∈ registry,
      ((scrape_all_sites registry run db now faults).lookup s).isSome = true) := by
  have hmap : ∀ a : String,
      (scrape_all_sites registry run db now faults).lookup a =
        if a ∈ registry then
          some ((scrape_site registry run db now (faults a) a).1)
        else none :=
    fun a => lookup_map_pair
      (fun s => (scrape_site registry run db now (faults s) s).1) registry a
  refine ⟨?_, ?_, ?_⟩
  · rw [hmap, if_pos hA]
    have hsite : (scrape_site registry run db now (faults A) A).1 = [] := by
      unfold scrape_site
      rw [if_pos hA, hrunA]
    rw [hsite]
  · rw [hmap, if_pos hB]
    have hsite : (scrape_site registry run db now (faults B) B).1 = bs := by
      unfold scrape_site
      rw [if_pos hB, hrunB]
    rw [hsite]
  · intro s hs
    rw [hmap, if_pos hs]
    rfl

/-- A concrete adapter-outcome fixture: site "A" raises, every other
site returns three listings. -/
def runFixture (s : String) : Except String (List JobData) :=
  if s = "A" then .error "boom" else .ok [jobA1, jobA2, jobNew]

/-- Witness for C4 at a concrete two-site registry. -/
theorem scrape_all_sites_isolation_witness :
    (scrape_all_sites ["A", "B"] runFixture [] ⟨0, 0⟩ (fun _ => .ok)).lookup "A" =
      some [] ∧
    (scrape_all_sites ["A", "B"] runFixture [] ⟨0, 0⟩ (fun _ => .ok)).lookup "B" =
      some [jobA1, jobA2, jobNew] := by
  have h := scrape_all_sites_isolation ["A", "B"] runFixture [] ⟨0, 0⟩ (fun _ => .ok)
    "A" "B" "boom" [jobA1, jobA2, jobNew]
    (by decide) (by decide) rfl rfl rfl
  exact ⟨h.1, h.2.1⟩

/-- C6 counterexample: at `now = ⟨1000, 55⟩` (a nonzero time of day),
`_parse_date("2 days ago")` is now minus two days with the time of day
preserved, not truncated to the start of the day as the claim states. -/
theorem parse_two_days_ago_truncated_cex :
    ¬ (parseDate ⟨1000, 55⟩ (some "2 days ago") none =
        some (startOfDay (addDays ⟨1000, 55⟩ (-2)))) := by
  decide

/-- C6 (amended): `_parse_date` is total (never raises); "today" maps
to the start of the current day, "yesterday" to the start of the
previous day, "2 days ago" to now minus 2 days with the time of day
preserved (not truncated), and unrecognized input such as "not a date"
(or a missing string) yields null without raising. -/
theorem parseDate_behavior (now : PyDateTime) :
    parseDate now (some "today") none = some (startOfDay now) ∧
    parseDate now (some "yesterday") none = some (startOfDay (addDays now (-1))) ∧
    parseDate now (some "2 days ago") none = some (addDays now (-2)) ∧
    parseDate now (some "not a date") none = none ∧
    parseDate now none none = none :=
  ⟨rfl, rfl, rfl, rfl, rfl⟩

/-- C8 counterexample: a failing fetch produces a trace with no sleep at
all — the politeness delay does not happen on the failure path, contrary
to the claim's "whether it succeeds or fails". -/
theorem fetch_failure_no_sleep_cex :
    ((getPageContent {} { httpGet := fun _ => .error (),
                          driverGet := fun _ => .error (),
                          jitter := 0 }
        "https://example.org/" false).2.any isSleepEvent) = false := by
  decide

/-- C8 (amended): after every successful fetch (plain or Selenium), a
sleep of `request_delay + jitter` runs last, before control returns;
when the fetch fails, the exception propagates immediately — the trace
is just the request, with no politeness sleep. -/
theorem politeness_sleep_on_success (settings : ScrapingSettings)
    (env : PageEnv) (url : String) (use_selenium : Bool) :
    (∀ html, (getPageContent settings env url use_selenium).1 = .ok html →
      (getPageContent settings env url use_selenium).2.getLast? =
        some (.sleep ((settings.request_delay : ℚ) + env.jitter))) ∧
    (∀ e, (getPageContent settings env url use_selenium).1 = .error e →
      (getPageContent settings env url use_selenium).2 = [.request url]) := by
  unfold getPageContent
  by_cases hs : (use_selenium || settings.use_selenium_for_dynamic_sites) = true
  · rw [if_pos hs]
    rcases hd : env.driverGet url with e | html <;> simp [hd]
  · rw [if_neg hs]
    rcases hh : env.httpGet url with e | html <;> simp [hh]

/-- An environment whose every fetch succeeds, with jitter sample 1. -/
def okPageEnv : PageEnv :=
  { httpGet := fun _ => .ok "page"
    driverGet := fun _ => .ok "page"
    jitter := 1 }

/-- Witness for C8 (amended): a concrete successful plain fetch ends
with the politeness sleep. -/
theorem politeness_sleep_on_success_witness :
    (getPageContent {} okPageEnv "https://example.org/" false).2.getLast? =
      some (.sleep ((({} : ScrapingSettings).request_delay : ℚ) + okPageEnv.jitter)) :=
  (politeness_sleep_on_success {} okPageEnv "https://example.org/" false).1 "page" rfl

/-- C9: Browser lifecycle — acquiring while a driver is cached returns
that handle and changes nothing (no second process is spawned), and
releasing is idempotent: a double release equals a single one, and
releasing when no driver was ever started (or it is already closed) is
a no-op. -/
theorem driver_lifecycle (st : DriverState) (d : Nat) (spawnOk : Bool)
    (h : st.driver = some d) :
    getSeleniumDriver st spawnOk = (st, .ok d) ∧
    (∀ t : DriverState, ∀ q q' : Bool,
      closeSeleniumDriver (closeSeleniumDriver t q) q' = closeSeleniumDriver t q) ∧
    (∀ t : DriverState, ∀ q : Bool, t.driver = none → closeSeleniumDriver t q = t) := by
  refine ⟨?_, ?_, ?_⟩
  · unfold getSeleniumDriver
    rw [h]
  · intro t q q'
    unfold closeSeleniumDriver
    rcases ht : t.driver with _ | d0
    · rw [ht]
    · rfl
  · intro t q ht
    unfold closeSeleniumDriver
    rw [ht]

/-- Witness for C9 at a concrete running state. -/
theorem driver_lifecycle_witness :
    getSeleniumDriver { driver := some 0, spawned := 1 } true =
      ({ driver := some 0, spawned := 1 }, .ok 0) :=
  (driver_lifecycle { driver := some 0, spawned := 1 } 0 true rfl).1

/-- C10: the We Work Remotely adapter requests exactly one index page
per run — its trace of index requests is always the configured listing
URL alone — and its behaviour is independent of the scraping settings
(including `max_pages_per_site`) and of the pagination configuration. -/
theorem wwr_single_index_page (cfg : SiteConfig) (s1 s2 : ScrapingSettings)
    (p1 p2 : Pagination) (env : ScrapeEnv) (ex : Extractors)
    (now : PyDateTime) :
    (wwrScrape cfg s1 env ex now).2 = [cfg.job_listings_url] ∧
    wwrScrape { cfg with pagination := p1 } s1 env ex now =
      wwrScrape { cfg with pagination := p2 } s2 env ex now := by
  constructor
  · unfold wwrScrape
    rcases h : env.fetchIndex cfg.job_listings_url with e | cs
    · simp [h]
    · simp only [h]
      by_cases hemp : cs.isEmpty = true
      · rw [if_pos hemp]
      · rw [if_neg hemp]
  · rfl

end Fit4Work
